import Mathlib

/-!
Verification development for the TUN TCP relay and UDP tunnel relay of a
shadowsocks-style local proxy.  The definitions below are a shallow
embedding of the Rust sources
`crates/shadowsocks-service/src/local/tun/tcp.rs` and
`crates/shadowsocks-service/src/local/tunnel/udprelay.rs`: pure functions
mirror the Rust functions, external I/O outcomes (smoltcp socket calls,
upstream sockets, spawned tasks) are passed in as explicit parameters,
and machine buffers are lists of bytes.
-/

namespace Shadowsocks

/-- Bytes are modelled as natural numbers (the value of each octet). -/
abbrev Byte := Nat

/-- A datagram payload or buffer content. -/
abbrev Bytes := List Byte

/-- A task waker is identified by a token; `Waker::will_wake` compares tokens. -/
abbrev Waker := Nat

/-- Result of a fallible operation, mirroring Rust `Result`. -/
inductive Res (ε α : Type) where
  | ok (a : α)
  | error (e : ε)
deriving DecidableEq, Repr

/-- Outcome of a Rust `poll_*` method: ready with a value, or pending. -/
inductive Poll (α : Type) where
  | ready (a : α)
  | pending
deriving DecidableEq, Repr

/-- A Rust `std::io::Error`, reduced to its kind and message. -/
structure IoError where
  kind : String
  message : String
deriving DecidableEq, Repr

/-- The error produced by `io::ErrorKind::BrokenPipe.into()`. -/
def brokenPipeError : IoError := { kind := "BrokenPipe", message := "" }

/-! ## TCP: connection control block (tun/tcp.rs) -/

/-- smoltcp `RingBuffer<u8>`: a byte FIFO with a fixed capacity.  The queued
bytes are `data` (front = oldest); the invariant `data.length ≤ capacity`
is maintained by the enqueue operation. -/
structure RingBuffer where
  capacity : Nat
  data : Bytes
deriving DecidableEq, Repr

/-- RingBuffer::is_full. -/
def RingBuffer.isFull (b : RingBuffer) : Bool := b.capacity ≤ b.data.length

/-- RingBuffer::is_empty. -/
def RingBuffer.isEmpty (b : RingBuffer) : Bool := b.data.isEmpty

/-- `TcpSocketControl`: the per-connection control block shared between the
user-facing `TcpConnection` handle and the socket manager. -/
structure TcpSocketControl where
  send_buffer : RingBuffer
  send_waker : Option Waker
  recv_buffer : RingBuffer
  recv_waker : Option Waker
  is_closed : Bool
deriving DecidableEq, Repr

/-- Replace the waker stored in a slot by the caller's waker `cx`, waking the
old waker when it would not wake the same caller (`will_wake` is token
equality).  Returns the new slot content and the list of wakers woken,
mirroring the `if let Some(old_waker) = slot.replace(cx) { ... }` pattern. -/
def replaceWaker (slot : Option Waker) (cx : Waker) : Option Waker × List Waker :=
  match slot with
  | none => (some cx, [])
  | some old => (some cx, if old = cx then [] else [old])

/-- Result of `TcpConnection::poll_read`: the poll outcome, the bytes copied
into the caller's buffer, the control block afterwards, the wakers woken
during the call, and whether the manager was notified. -/
structure PollReadOut where
  result : Poll (Res IoError Unit)
  bytes : Bytes
  control : TcpSocketControl
  woken : List Waker
  notified : Bool
deriving DecidableEq, Repr

/-- `TcpConnection::poll_read` (tun/tcp.rs): EOF if closed; register the
waker and return Pending if the recv buffer is empty; otherwise dequeue up
to `bufLen` bytes and notify the manager. -/
def poll_read (c : TcpSocketControl) (cx : Waker) (bufLen : Nat) : PollReadOut :=
  if c.is_closed then
    { result := .ready (.ok ()), bytes := [], control := c, woken := [], notified := false }
  else if c.recv_buffer.isEmpty then
    let (slot, woken) := replaceWaker c.recv_waker cx
    { result := .pending, bytes := [], control := { c with recv_waker := slot },
      woken := woken, notified := false }
  else
    let n := min bufLen c.recv_buffer.data.length
    { result := .ready (.ok ()),
      bytes := c.recv_buffer.data.take n,
      control := { c with recv_buffer := { c.recv_buffer with data := c.recv_buffer.data.drop n } },
      woken := [], notified := true }

/-- Result of `TcpConnection::poll_write`. -/
structure PollWriteOut where
  result : Poll (Res IoError Nat)
  control : TcpSocketControl
  woken : List Waker
  notified : Bool
deriving DecidableEq, Repr

/-- `TcpConnection::poll_write` (tun/tcp.rs): broken pipe if closed; register
the waker and return Pending if the send buffer is full; otherwise enqueue
as many bytes of `src` as fit, return the count and notify the manager. -/
def poll_write (c : TcpSocketControl) (cx : Waker) (src : Bytes) : PollWriteOut :=
  if c.is_closed then
    { result := .ready (.error brokenPipeError), control := c, woken := [], notified := false }
  else if c.send_buffer.isFull then
    let (slot, woken) := replaceWaker c.send_waker cx
    { result := .pending, control := { c with send_waker := slot },
      woken := woken, notified := false }
  else
    let n := min (c.send_buffer.capacity - c.send_buffer.data.length) src.length
    { result := .ready (.ok n),
      control := { c with send_buffer :=
        { c.send_buffer with data := c.send_buffer.data ++ src.take n } },
      woken := [], notified := true }

/-- Result of `TcpConnection::poll_shutdown`. -/
structure PollShutdownOut where
  result : Poll (Res IoError Unit)
  control : TcpSocketControl
  woken : List Waker
deriving DecidableEq, Repr

/-- `TcpConnection::poll_shutdown` (tun/tcp.rs): done if already closed, else
set `is_closed`, register the waker in `send_waker` and return Pending. -/
def poll_shutdown (c : TcpSocketControl) (cx : Waker) : PollShutdownOut :=
  if c.is_closed then
    { result := .ready (.ok ()), control := c, woken := [] }
  else
    let (slot, woken) := replaceWaker c.send_waker cx
    { result := .pending, control := { c with is_closed := true, send_waker := slot },
      woken := woken }

/-- `impl Drop for TcpConnection` (tun/tcp.rs): set `is_closed` without
waking anyone. -/
def drop_connection (c : TcpSocketControl) : TcpSocketControl :=
  { c with is_closed := true }

/-! ## TCP: socket manager poll loop (tun/tcp.rs) -/

/-- smoltcp `TcpState`. -/
inductive TcpState where
  | Closed
  | Listen
  | SynSent
  | SynReceived
  | Established
  | FinWait1
  | FinWait2
  | CloseWait
  | Closing
  | LastAck
  | TimeWait
deriving DecidableEq, Repr

/-- Abstraction of a smoltcp stack-side `TcpSocket` as observed by the
manager loop: whether it is open, its TCP state, the bytes it has received
and can hand over (`rx`), whether a `recv` call reports an error, the
number of bytes it can currently accept for sending (`tx_space`), whether
a `send` call reports an error, and whether `close()` has been called on
it. -/
structure StackSocket where
  is_open : Bool
  st : TcpState
  rx : Bytes
  rx_err : Bool
  tx_space : Nat
  tx_err : Bool
  close_called : Bool
deriving DecidableEq, Repr

/-- `close_socket_control` (tun/tcp.rs, inside the manager loop): mark the
control closed and wake (taking) both wakers.  Returns the new control and
the wakers woken. -/
def close_socket_control (c : TcpSocketControl) : TcpSocketControl × List Waker :=
  ({ c with is_closed := true, send_waker := none, recv_waker := none },
   c.send_waker.toList ++ c.recv_waker.toList)

/-- Result of the manager's receive-pumping loop. -/
structure PumpRecvOut where
  rx : Bytes
  buf : RingBuffer
  has_received : Bool
  errored : Bool
deriving DecidableEq, Repr

/-- The `while socket.can_recv() && !control.recv_buffer.is_full()` loop of
the manager: each iteration moves as many received bytes as fit into the
recv ring buffer; a socket error breaks out of the loop. -/
def pump_recv (rx : Bytes) (rx_err : Bool) (buf : RingBuffer) : PumpRecvOut :=
  if h : rx = [] ∨ buf.capacity ≤ buf.data.length then
    { rx := rx, buf := buf, has_received := false, errored := false }
  else if rx_err then
    { rx := rx, buf := buf, has_received := false, errored := true }
  else
    let n := min (buf.capacity - buf.data.length) rx.length
    let out := pump_recv (rx.drop n) rx_err { buf with data := buf.data ++ rx.take n }
    { rx := out.rx, buf := out.buf, has_received := true, errored := out.errored }
termination_by rx.length
decreasing_by
  simp only [List.length_drop]
  have h1 : rx ≠ [] := fun hh => h (Or.inl hh)
  have h2 : buf.data.length < buf.capacity := by
    rcases Nat.lt_or_ge buf.data.length buf.capacity with h' | h'
    · exact h'
    · exact absurd (Or.inr h') h
  have h3 : 0 < rx.length := List.length_pos.mpr h1
  omega

/-- Result of the manager's send-pumping loop. -/
structure PumpSendOut where
  tx_space : Nat
  buf : RingBuffer
  has_sent : Bool
  errored : Bool
deriving DecidableEq, Repr

/-- The `while socket.can_send() && !control.send_buffer.is_empty()` loop of
the manager: each iteration moves as many queued bytes as the stack socket
accepts out of the send ring buffer; a socket error breaks out. -/
def pump_send (tx_space : Nat) (tx_err : Bool) (buf : RingBuffer) : PumpSendOut :=
  if h : tx_space = 0 ∨ buf.data = [] then
    { tx_space := tx_space, buf := buf, has_sent := false, errored := false }
  else if tx_err then
    { tx_space := tx_space, buf := buf, has_sent := false, errored := true }
  else
    let n := min tx_space buf.data.length
    let out := pump_send (tx_space - n) tx_err { buf with data := buf.data.drop n }
    { tx_space := out.tx_space, buf := out.buf, has_sent := true, errored := out.errored }
termination_by buf.data.length
decreasing_by
  simp only [List.length_drop]
  have h1 : tx_space ≠ 0 := fun hh => h (Or.inl hh)
  have h2 : buf.data ≠ [] := fun hh => h (Or.inr hh)
  have h3 : 0 < buf.data.length := List.length_pos.mpr h2
  omega

/-- What the manager loop did to one `(handle, control)` entry in one
iteration: the control and the stack socket afterwards, whether the handle
was pushed onto `sockets_to_remove`, and the wakers woken (in order). -/
structure EntryStepOut where
  control : TcpSocketControl
  sock : StackSocket
  removed : Bool
  woken : List Waker
deriving DecidableEq, Repr

/-- One entry of the manager loop body (tun/tcp.rs, `TcpTun::new`): if the
stack socket is not open or is Closed, close the control (waking both
wakers) and schedule removal; else if the control is closed, ask the stack
socket to close and keep the entry; else pump received bytes in and queued
bytes out, waking the corresponding waker on progress and closing plus
scheduling removal on a socket error. -/
def entry_step (sock : StackSocket) (control : TcpSocketControl) : EntryStepOut :=
  if ¬sock.is_open ∨ sock.st = TcpState.Closed then
    let p := close_socket_control control
    { control := p.1, sock := sock, removed := true, woken := p.2 }
  else if control.is_closed then
    { control := control, sock := { sock with close_called := true },
      removed := false, woken := [] }
  else
    let r := pump_recv sock.rx sock.rx_err control.recv_buffer
    let c1 := { control with recv_buffer := r.buf }
    let (c2, w1, removed1) :=
      if r.errored then
        let p := close_socket_control c1
        (p.1, p.2, true)
      else (c1, [], false)
    let (c3, w2) :=
      if r.has_received then
        match c2.recv_waker with
        | some w => ({ c2 with recv_waker := none }, [w])
        | none => (c2, [])
      else (c2, [])
    let s := pump_send sock.tx_space sock.tx_err c3.send_buffer
    let c4 := { c3 with send_buffer := s.buf }
    let (c5, w3, removed2) :=
      if s.errored then
        let p := close_socket_control c4
        (p.1, p.2, true)
      else (c4, [], false)
    let (c6, w4) :=
      if s.has_sent then
        match c5.send_waker with
        | some w => ({ c5 with send_waker := none }, [w])
        | none => (c5, [])
      else (c5, [])
    { control := c6, sock := { sock with rx := r.rx, tx_space := s.tx_space },
      removed := removed1 || removed2, woken := w1 ++ w2 ++ w3 ++ w4 }

/-! ## TCP: addresses and the tun front-end (tun/tcp.rs) -/

/-- An IPv4 address, as four octets. -/
structure Ipv4Addr where
  a : Nat
  b : Nat
  c : Nat
  d : Nat
deriving DecidableEq, Repr

/-- An IPv6 address, as its sixteen octets. -/
structure Ipv6Addr where
  octets : Bytes
deriving DecidableEq, Repr

/-- A socket address: an IPv4 or IPv6 address together with a port. -/
inductive SocketAddr where
  | V4 (ip : Ipv4Addr) (port : Nat)
  | V6 (ip : Ipv6Addr) (port : Nat)
deriving DecidableEq, Repr

/-- A socks5 `Address`: a socket address or a domain name with a port. -/
inductive Address where
  | SocketAddress (sa : SocketAddr)
  | DomainNameAddress (name : String) (port : Nat)
deriving DecidableEq, Repr

/-- Modelled from the spec: the helper `to_ipv4_mapped` lives in
`crates/shadowsocks-service/src/local/utils.rs`, which is not part of the
provided sources.  Per the spec, a destination of the IPv4-mapped form
`::ffff:a.b.c.d` is unmapped to the IPv4 address `a.b.c.d`; any other
address yields none. -/
def to_ipv4_mapped (ip : Ipv6Addr) : Option Ipv4Addr :=
  match ip.octets with
  | [o0, o1, o2, o3, o4, o5, o6, o7, o8, o9, o10, o11, a, b, c, d] =>
    if o0 = 0 ∧ o1 = 0 ∧ o2 = 0 ∧ o3 = 0 ∧ o4 = 0 ∧ o5 = 0 ∧ o6 = 0 ∧ o7 = 0
        ∧ o8 = 0 ∧ o9 = 0 ∧ o10 = 255 ∧ o11 = 255 then
      some { a := a, b := b, c := c, d := d }
    else
      none
  | _ => none

/-- The destination-address computation of `handle_redir_client`
(tun/tcp.rs): unmap an IPv4-mapped IPv6 destination, keeping the port,
then convert to a socks5 `Address`; all other destinations pass through
unchanged. -/
def handle_redir_client_target (daddr : SocketAddr) : Address :=
  let d := match daddr with
    | .V6 ip p =>
      match to_ipv4_mapped ip with
      | some v4 => SocketAddr.V4 v4 p
      | none => daddr
    | .V4 _ _ => daddr
  Address.SocketAddress d

/-- Default TCP buffer sizes (tun/tcp.rs constants, from Linux defaults). -/
def DEFAULT_TCP_SEND_BUFFER_SIZE : Nat := 16384

/-- Default TCP receive buffer size (tun/tcp.rs constant). -/
def DEFAULT_TCP_RECV_BUFFER_SIZE : Nat := 87380

/-- The TCP part of the accept options handed to `TcpTun::handle_packet`. -/
structure TcpOpts where
  send_buffer_size : Option Nat
  recv_buffer_size : Option Nat
  keepalive : Option Nat
deriving DecidableEq, Repr

/-- The observable effect of `TcpTun::handle_packet` when it admits a SYN:
the configuration of the freshly created stack socket and the fact that a
splicing task was spawned for it. -/
structure CreatedConn where
  recv_buffer_capacity : Nat
  send_buffer_capacity : Nat
  keep_alive : Option Nat
  timeout : Option Nat
  listen_addr : SocketAddr
  spawned : Bool
deriving DecidableEq, Repr

/-- `TcpTun::handle_packet` (tun/tcp.rs): when the segment has SYN set and
ACK clear, build a stack socket with the configured buffer sizes, the
configured keep-alive, a 7200-second idle timeout, listening on the
destination address; a listen failure is surfaced as an io error; any
other segment is reported as handled with no connection created.  The
listen outcome is external (a smoltcp call) and passed as a parameter. -/
def handle_packet (opts : TcpOpts) (syn ack : Bool) (dst_addr : SocketAddr)
    (listen_result : Res String Unit) : Res IoError (Option CreatedConn) :=
  if syn && !ack then
    let send_buffer_size := opts.send_buffer_size.getD DEFAULT_TCP_SEND_BUFFER_SIZE
    let recv_buffer_size := opts.recv_buffer_size.getD DEFAULT_TCP_RECV_BUFFER_SIZE
    match listen_result with
    | .error e => .error { kind := "Other", message := e }
    | .ok _ =>
      .ok (some
        { recv_buffer_capacity := recv_buffer_size,
          send_buffer_capacity := send_buffer_size,
          keep_alive := opts.keepalive,
          timeout := some 7200,
          listen_addr := dst_addr,
          spawned := true })
  else
    .ok none

/-! ## UDP: bounded channel and association (tunnel/udprelay.rs) -/

/-- A tokio `mpsc::channel` as observed by `try_send`: a bounded FIFO of
payloads plus whether the receiving side has gone away. -/
structure BoundedChan where
  capacity : Nat
  queue : List Bytes
  closed : Bool
deriving DecidableEq, Repr

/-- Why a tokio `try_send` can fail. -/
inductive TrySendErr where
  | full
  | closed
deriving DecidableEq, Repr

/-- tokio `Sender::try_send`: fails with `closed` when the receiver is gone,
with `full` when the queue is at capacity, else appends the payload. -/
def BoundedChan.try_send_chan (c : BoundedChan) (b : Bytes) : Res TrySendErr BoundedChan :=
  if c.closed then .error .closed
  else if c.capacity ≤ c.queue.length then .error .full
  else .ok { c with queue := c.queue ++ [b] }

/-- tokio `Receiver::recv` on the worker side, when a payload is available:
pop the front of the queue. -/
def BoundedChan.recv_chan (c : BoundedChan) : Option (Bytes × BoundedChan) :=
  match c.queue with
  | [] => none
  | b :: rest => some (b, { c with queue := rest })

/-- `UdpAssociation` (tunnel/udprelay.rs), reduced to its observable state:
the sender half of its bounded channel.  The worker task handle carries no
state relevant to the claims. -/
structure UdpAssociation where
  sender : BoundedChan
deriving DecidableEq, Repr

/-- The error `UdpAssociation::try_send` returns on any channel failure. -/
def udpRelayChannelFullError : IoError :=
  { kind := "Other", message := "udp relay channel full" }

/-- `UdpAssociation::try_send` (tunnel/udprelay.rs): offer the payload to
the channel without blocking; on any failure of the underlying `try_send`
(the code discards which one with `if let Err(..)`), return the io error
"udp relay channel full". -/
def UdpAssociation.try_send (a : UdpAssociation) (data : Bytes) : Res IoError UdpAssociation :=
  match a.sender.try_send_chan data with
  | .error _ => .error udpRelayChannelFullError
  | .ok c => .ok { sender := c }

/-- `UdpAssociationContext::create` (tunnel/udprelay.rs): the channel is
created with `mpsc::channel(128)` — capacity 128, empty, with the worker
holding the open receiver. -/
def UdpAssociationContext.create_sender : BoundedChan :=
  { capacity := 128, queue := [], closed := false }

/-! ## UDP: tunnel front-end (tunnel/udprelay.rs) -/

/-- The association map of the UDP tunnel, keyed by the client address.
Recency bookkeeping of the LRU cache is not relevant to the claims and is
not modelled. -/
abbrev AssocMap := List (SocketAddr × UdpAssociation)

/-- `LruCache::get`: find the association for a peer address. -/
def assoc_lookup : AssocMap → SocketAddr → Option UdpAssociation
  | [], _ => none
  | (k, v) :: rest, peer => if k = peer then some v else assoc_lookup rest peer

/-- Update the association stored for a peer address in place. -/
def assoc_update : AssocMap → SocketAddr → UdpAssociation → AssocMap
  | [], _, _ => []
  | (k, v) :: rest, peer, a =>
    if k = peer then (k, a) :: rest else (k, v) :: assoc_update rest peer a

/-- Result of `UdpTunnel::send_packet`: the value returned to the caller and
the association map afterwards. -/
structure SendPacketOut where
  result : Res IoError Unit
  assoc_map : AssocMap
deriving DecidableEq, Repr

/-- `UdpTunnel::send_packet` (tunnel/udprelay.rs): if an association exists
for the peer, offer the datagram to it; otherwise build a new association
with `UdpAssociation::new` and offer the datagram to it, and only when
that succeeds (the `?` operator returns early on failure) insert it into
the map.  The freshly built association is a parameter: its channel state
at the time of the first `try_send` depends on the concurrently spawned
worker task, which a pure model cannot fix (`UdpAssociationContext.create_sender`
is its state when the worker has simply not touched the channel). -/
def send_packet (m : AssocMap) (peer : SocketAddr) (newAssoc : UdpAssociation)
    (data : Bytes) : SendPacketOut :=
  match assoc_lookup m peer with
  | some assoc =>
    match assoc.try_send data with
    | .error e => { result := .error e, assoc_map := m }
    | .ok a => { result := .ok (), assoc_map := assoc_update m peer a }
  | none =>
    match newAssoc.try_send data with
    | .error e => { result := .error e, assoc_map := m }
    | .ok a => { result := .ok (), assoc_map := m ++ [(peer, a)] }

/-! ## UDP: association worker (tunnel/udprelay.rs) -/

/-- An upstream proxied socket handle (`MonProxySocket`), identified by a
token; its I/O behaviour is passed into the worker model as parameters. -/
structure MonProxySocket where
  id : Nat
deriving DecidableEq, Repr

/-- The mutable state of `UdpAssociationContext` relevant to the claims. -/
structure UdpAssociationContext where
  peer_addr : SocketAddr
  forward_addr : Address
  proxied_socket : Option MonProxySocket
deriving DecidableEq, Repr

/-- `UdpAssociationContext::dispatch_received_proxied_packet`
(tunnel/udprelay.rs): if no proxied socket exists yet, connect one (the
balancer pick and connect outcome are external, passed as
`connect_result`; a connect failure propagates through `?`); then send the
payload on the socket (`send_result` is the external outcome).  On a send
failure, log, clear `proxied_socket` to none, and still return ok. -/
def dispatch_received_proxied_packet (ctx : UdpAssociationContext)
    (connect_result : Res IoError MonProxySocket) (send_result : Res IoError Unit) :
    Res IoError UdpAssociationContext :=
  match ctx.proxied_socket with
  | some _ =>
    match send_result with
    | .ok _ => .ok ctx
    | .error _ => .ok { ctx with proxied_socket := none }
  | none =>
    match connect_result with
    | .error e => .error e
    | .ok s =>
      match send_result with
      | .ok _ => .ok { ctx with proxied_socket := some s }
      | .error _ => .ok { ctx with proxied_socket := none }

/-- `UdpAssociationContext::dispatch_received_packet` (tunnel/udprelay.rs):
run the proxied dispatch and swallow (log) any error, so the worker's
client-to-upstream arm always completes. -/
def dispatch_received_packet (ctx : UdpAssociationContext)
    (connect_result : Res IoError MonProxySocket) (send_result : Res IoError Unit) :
    UdpAssociationContext :=
  match dispatch_received_proxied_packet ctx connect_result send_result with
  | .ok c => c
  | .error _ => ctx

/-- The upstream-to-client arm of `UdpAssociationContext::dispatch_packet`
(tunnel/udprelay.rs): on a receive failure from the proxied socket, clear
`proxied_socket` to none and continue; on success the datagram is relayed
back to the client, leaving `proxied_socket` untouched. -/
def dispatch_recv_arm (ctx : UdpAssociationContext)
    (recv_result : Res IoError (Bytes × Address)) : UdpAssociationContext :=
  match recv_result with
  | .error _ => { ctx with proxied_socket := none }
  | .ok _ => ctx

/-! ## Claims -/

set_option maxRecDepth 8192 in
/-- C1 (counterexample): the claim says that when the freshly created
association's initial `try_send` fails, the association is still inserted
into the map.  At the concrete input below — empty map, a fresh
association whose channel is at capacity — `send_packet` returns the
channel-full error and the resulting map still has no entry for the peer:
the `?` operator returns before the insert. -/
theorem C1_counterexample :
    (send_packet [] (SocketAddr.V4 ⟨127, 0, 0, 1⟩ 5000)
        ⟨⟨128, List.replicate 128 [], false⟩⟩ [1, 2, 3]).result
      = .error udpRelayChannelFullError
    ∧ assoc_lookup (send_packet [] (SocketAddr.V4 ⟨127, 0, 0, 1⟩ 5000)
        ⟨⟨128, List.replicate 128 [], false⟩⟩ [1, 2, 3]).assoc_map
        (SocketAddr.V4 ⟨127, 0, 0, 1⟩ 5000) = none := by
  constructor
  · rfl
  · rfl

/-- C1 (amended): for a datagram from a peer with no existing association,
`send_packet` creates a new association; if that association's initial
`try_send` fails, the error is returned and the association map is left
unchanged — the new association is NOT inserted (it is dropped, aborting
its worker), so the next packet from the same peer creates a fresh
association; only when the initial `try_send` succeeds is the association
inserted. -/
theorem C1_amended_send_packet_no_insert_on_failure (m : AssocMap) (peer : SocketAddr)
    (na : UdpAssociation) (data : Bytes) (e : IoError)
    (hm : assoc_lookup m peer = none) :
    (na.try_send data = .error e →
      (send_packet m peer na data).result = .error e
      ∧ (send_packet m peer na data).assoc_map = m)
    ∧ (∀ a, na.try_send data = .ok a →
      (send_packet m peer na data).result = .ok ()
      ∧ (send_packet m peer na data).assoc_map = m ++ [(peer, a)]) := by
  constructor
  · intro h
    simp [send_packet, hm, h]
  · intro a h
    simp [send_packet, hm, h]

set_option maxRecDepth 8192 in
/-- C1 (amended, witness): the amended theorem at the concrete
counterexample input. -/
theorem C1_amended_witness :
    (send_packet [] (SocketAddr.V4 ⟨127, 0, 0, 1⟩ 5000)
        ⟨⟨128, List.replicate 128 [], false⟩⟩ [1, 2, 3]).assoc_map = [] :=
  ((C1_amended_send_packet_no_insert_on_failure [] (SocketAddr.V4 ⟨127, 0, 0, 1⟩ 5000)
      ⟨⟨128, List.replicate 128 [], false⟩⟩ [1, 2, 3] udpRelayChannelFullError rfl).1 rfl).2

/-- C9: whether the underlying channel `try_send` fails because the queue
is full or because the channel is closed (the worker is gone),
`UdpAssociation::try_send` returns the same io error, kind Other with
message "udp relay channel full" — the caller cannot tell the two apart. -/
theorem C9_try_send_failure_indistinguishable (a : UdpAssociation) (data : Bytes)
    (e : TrySendErr) (h : a.sender.try_send_chan data = .error e) :
    a.try_send data = .error udpRelayChannelFullError
    ∧ udpRelayChannelFullError = { kind := "Other", message := "udp relay channel full" } := by
  constructor
  · simp [UdpAssociation.try_send, h]
  · rfl

set_option maxRecDepth 8192 in
/-- C9 (witness): a full channel and a closed channel produce the identical
error value. -/
theorem C9_witness :
    UdpAssociation.try_send ⟨⟨128, List.replicate 128 [], false⟩⟩ [1]
        = .error udpRelayChannelFullError
    ∧ UdpAssociation.try_send ⟨⟨128, [], true⟩⟩ [1]
        = .error udpRelayChannelFullError :=
  ⟨(C9_try_send_failure_indistinguishable ⟨⟨128, List.replicate 128 [], false⟩⟩ [1]
      .full rfl).1,
   (C9_try_send_failure_indistinguishable ⟨⟨128, [], true⟩⟩ [1] .closed rfl).1⟩

/-- C5: the association's queue is created with capacity exactly 128 and
empty; `try_send` is a total, non-suspending operation that fails with the
channel-full error when the queue is at capacity (the packet is dropped,
the queue unchanged); both `try_send` and the worker's dequeue preserve
the bound `queue.length ≤ capacity`, so an association created by
`UdpAssociationContext::create` never holds more than 128 payloads. -/
theorem C5_bounded_queue_capacity_128 :
    UdpAssociationContext.create_sender.capacity = 128
    ∧ UdpAssociationContext.create_sender.queue = []
    ∧ UdpAssociationContext.create_sender.queue.length ≤ 128
    ∧ (∀ (a : UdpAssociation) (data : Bytes),
        a.sender.closed = false →
        a.sender.capacity ≤ a.sender.queue.length →
        a.try_send data = .error udpRelayChannelFullError)
    ∧ (∀ (a a' : UdpAssociation) (data : Bytes),
        a.try_send data = .ok a' →
        a'.sender.capacity = a.sender.capacity
        ∧ a'.sender.queue.length = a.sender.queue.length + 1
        ∧ a'.sender.queue.length ≤ a'.sender.capacity)
    ∧ (∀ (c c' : BoundedChan) (b : Bytes),
        c.queue.length ≤ c.capacity →
        c.recv_chan = some (b, c') →
        c'.capacity = c.capacity ∧ c'.queue.length ≤ c'.capacity) := by
  refine ⟨rfl, rfl, by simp [UdpAssociationContext.create_sender], ?_, ?_, ?_⟩
  · intro a data hcl hfull
    simp [UdpAssociation.try_send, BoundedChan.try_send_chan, hcl, hfull]
  · intro a a' data h
    simp only [UdpAssociation.try_send] at h
    cases hc : a.sender.try_send_chan data with
    | error e =>
      rw [hc] at h
      cases h
    | ok c =>
      rw [hc] at h
      cases h
      simp only [BoundedChan.try_send_chan] at hc
      split at hc
      · cases hc
      · split at hc
        · cases hc
        · cases hc
          rename_i hcl hfull
          refine ⟨rfl, by simp, ?_⟩
          simp only [List.length_append, List.length_cons, List.length_nil]
          omega
  · intro c c' b hle h
    simp only [BoundedChan.recv_chan] at h
    cases hq : c.queue with
    | nil =>
      rw [hq] at h
      cases h
    | cons x rest =>
      rw [hq] at h
      cases h
      refine ⟨rfl, ?_⟩
      have h2 : rest.length + 1 ≤ c.capacity := by
        rw [hq] at hle
        simpa using hle
      show rest.length ≤ c.capacity
      omega

/-- C5 (witness): a capacity-saturated association rejects the next packet
with the channel-full error. -/
theorem C5_witness :
    UdpAssociation.try_send ⟨⟨128, List.replicate 128 [7], false⟩⟩ [9]
        = .error udpRelayChannelFullError :=
  C5_bounded_queue_capacity_128.2.2.2.1 ⟨⟨128, List.replicate 128 [7], false⟩⟩ [9]
    rfl (by simp)

/-- C6: in the association worker, a failed send on the proxied upstream
socket clears `proxied_socket` to none and the client-to-upstream dispatch
still returns ok (the error is logged, not propagated) — both when the
socket already existed and when it was freshly connected; and a failed
receive from the proxied socket likewise clears `proxied_socket` to none,
so the next client packet reconnects via a fresh balancer pick. -/
theorem C6_upstream_failure_clears_socket (ctx : UdpAssociationContext)
    (s : MonProxySocket) (cr : Res IoError MonProxySocket) (e e' : IoError) :
    (ctx.proxied_socket = some s →
      dispatch_received_proxied_packet ctx cr (.error e)
        = .ok { ctx with proxied_socket := none })
    ∧ (ctx.proxied_socket = none →
      dispatch_received_proxied_packet ctx (.ok s) (.error e)
        = .ok { ctx with proxied_socket := none })
    ∧ (ctx.proxied_socket = some s →
      dispatch_received_packet ctx cr (.error e) = { ctx with proxied_socket := none })
    ∧ dispatch_recv_arm ctx (.error e') = { ctx with proxied_socket := none } := by
  refine ⟨?_, ?_, ?_, rfl⟩
  · intro h
    simp [dispatch_received_proxied_packet, h]
  · intro h
    simp [dispatch_received_proxied_packet, h]
  · intro h
    simp [dispatch_received_packet, dispatch_received_proxied_packet, h]

/-- C6 (witness): the theorem at a concrete association state with a live
proxied socket. -/
theorem C6_witness :
    dispatch_received_proxied_packet
        { peer_addr := SocketAddr.V4 ⟨10, 0, 0, 2⟩ 4000,
          forward_addr := Address.DomainNameAddress "example.com" 53,
          proxied_socket := some ⟨1⟩ }
        (.ok ⟨2⟩) (.error { kind := "Other", message := "send failed" })
      = .ok { peer_addr := SocketAddr.V4 ⟨10, 0, 0, 2⟩ 4000,
              forward_addr := Address.DomainNameAddress "example.com" 53,
              proxied_socket := none } :=
  (C6_upstream_failure_clears_socket
      { peer_addr := SocketAddr.V4 ⟨10, 0, 0, 2⟩ 4000,
        forward_addr := Address.DomainNameAddress "example.com" 53,
        proxied_socket := some ⟨1⟩ }
      ⟨1⟩ (.ok ⟨2⟩) { kind := "Other", message := "send failed" }
      { kind := "Other", message := "recv failed" }).1 rfl

/-- C2: `is_closed` is monotone — none of `poll_read`, `poll_write`,
`poll_shutdown`, the handle's drop, or the manager's per-entry poll step
ever resets it from true to false — and once it is true, `poll_read`
completes immediately with EOF (zero bytes) and `poll_write` with a
broken-pipe error, leaving buffers and wakers untouched and waking and
notifying nobody. -/
theorem C2_is_closed_monotone_and_terminal (c : TcpSocketControl) (cx : Waker)
    (bufLen : Nat) (src : Bytes) (sock : StackSocket) (h : c.is_closed = true) :
    ((poll_read c cx bufLen).control.is_closed = true
      ∧ (poll_write c cx src).control.is_closed = true
      ∧ (poll_shutdown c cx).control.is_closed = true
      ∧ (drop_connection c).is_closed = true
      ∧ (entry_step sock c).control.is_closed = true)
    ∧ poll_read c cx bufLen =
        { result := .ready (.ok ()), bytes := [], control := c, woken := [], notified := false }
    ∧ poll_write c cx src =
        { result := .ready (.error brokenPipeError), control := c, woken := [],
          notified := false } := by
  refine ⟨⟨?_, ?_, ?_, rfl, ?_⟩, ?_, ?_⟩
  · simp [poll_read, h]
  · simp [poll_write, h]
  · simp [poll_shutdown, h]
  · unfold entry_step
    rw [if_pos h]
    split
    · rfl
    · exact h
  · simp [poll_read, h]
  · simp [poll_write, h]

/-- C2 (witness): the theorem at a concrete closed control block. -/
theorem C2_witness :
    (poll_write
        { send_buffer := ⟨4, [1]⟩, send_waker := some 5,
          recv_buffer := ⟨4, [2]⟩, recv_waker := some 6, is_closed := true }
        9 [3, 4]) =
      { result := .ready (.error brokenPipeError),
        control := { send_buffer := ⟨4, [1]⟩, send_waker := some 5,
                     recv_buffer := ⟨4, [2]⟩, recv_waker := some 6, is_closed := true },
        woken := [], notified := false } :=
  (C2_is_closed_monotone_and_terminal
      { send_buffer := ⟨4, [1]⟩, send_waker := some 5,
        recv_buffer := ⟨4, [2]⟩, recv_waker := some 6, is_closed := true }
      9 0 [3, 4]
      { is_open := true, st := .Established, rx := [], rx_err := false,
        tx_space := 0, tx_err := false, close_called := false }
      rfl).2.2

/-- C3: in one manager iteration, an entry whose stack socket is not open
or is in state Closed has its control marked closed, both registered
wakers woken (and taken), and the handle scheduled for removal; whereas an
entry whose stack socket is still live but whose control has `is_closed`
set gets the stack socket's `close()` called and is NOT removed on this
tick — removal waits for a later tick to observe the stack socket not
open or Closed. -/
theorem C3_manager_two_phase_teardown (sock : StackSocket) (c : TcpSocketControl) :
    ((¬sock.is_open ∨ sock.st = TcpState.Closed) →
      (entry_step sock c).removed = true
      ∧ (entry_step sock c).control.is_closed = true
      ∧ (entry_step sock c).woken = c.send_waker.toList ++ c.recv_waker.toList
      ∧ (entry_step sock c).control.send_waker = none
      ∧ (entry_step sock c).control.recv_waker = none
      ∧ (entry_step sock c).sock = sock)
    ∧ (sock.is_open = true → sock.st ≠ TcpState.Closed → c.is_closed = true →
      (entry_step sock c).removed = false
      ∧ (entry_step sock c).sock = { sock with close_called := true }
      ∧ (entry_step sock c).control = c
      ∧ (entry_step sock c).woken = []) := by
  constructor
  · intro hb
    unfold entry_step
    rw [if_pos hb]
    simp [close_socket_control]
  · intro h1 h2 h3
    have hb : ¬(¬sock.is_open = true ∨ sock.st = TcpState.Closed) := by
      intro hor
      rcases hor with h' | h'
      · exact h' h1
      · exact h2 h'
    unfold entry_step
    rw [if_neg hb, if_pos h3]
    exact ⟨rfl, rfl, rfl, rfl⟩

/-- C3 (witness): the theorem at two concrete entries — one whose stack
socket reached Closed (removed, control closed, both wakers woken) and one
whose user side closed first (stack close requested, not removed). -/
theorem C3_witness :
    ((entry_step
        { is_open := true, st := .Closed, rx := [1], rx_err := false,
          tx_space := 3, tx_err := false, close_called := false }
        { send_buffer := ⟨4, [1]⟩, send_waker := some 5,
          recv_buffer := ⟨4, []⟩, recv_waker := some 6, is_closed := false }).removed = true
      ∧ (entry_step
        { is_open := true, st := .Closed, rx := [1], rx_err := false,
          tx_space := 3, tx_err := false, close_called := false }
        { send_buffer := ⟨4, [1]⟩, send_waker := some 5,
          recv_buffer := ⟨4, []⟩, recv_waker := some 6, is_closed := false }).woken = [5, 6])
    ∧ ((entry_step
        { is_open := true, st := .Established, rx := [1], rx_err := false,
          tx_space := 3, tx_err := false, close_called := false }
        { send_buffer := ⟨4, [1]⟩, send_waker := some 5,
          recv_buffer := ⟨4, []⟩, recv_waker := some 6, is_closed := true }).removed = false
      ∧ (entry_step
        { is_open := true, st := .Established, rx := [1], rx_err := false,
          tx_space := 3, tx_err := false, close_called := false }
        { send_buffer := ⟨4, [1]⟩, send_waker := some 5,
          recv_buffer := ⟨4, []⟩, recv_waker := some 6, is_closed := true }).sock.close_called
          = true) := by
  constructor
  · constructor
    · exact ((C3_manager_two_phase_teardown _ _).1 (Or.inr rfl)).1
    · exact ((C3_manager_two_phase_teardown _ _).1 (Or.inr rfl)).2.2.1
  · constructor
    · exact ((C3_manager_two_phase_teardown _ _).2 rfl (by decide) rfl).1
    · exact congrArg StackSocket.close_called
        ((C3_manager_two_phase_teardown _ _).2 rfl (by decide) rfl).2.1

/-- C4: `poll_write` on a non-closed connection: when the send buffer is
full, the caller's waker replaces any previously registered one (waking
the replaced waker exactly when it would not wake the same caller), the
call returns Pending and no bytes are enqueued and the manager is not
notified; otherwise it enqueues as many bytes of `src` as fit in the ring
buffer, returns that count, and notifies the manager. -/
theorem C4_poll_write_open (c : TcpSocketControl) (cx : Waker) (src : Bytes)
    (h : c.is_closed = false) :
    (c.send_buffer.capacity ≤ c.send_buffer.data.length →
      poll_write c cx src =
        { result := .pending,
          control := { c with send_waker := some cx },
          woken := match c.send_waker with
                    | some old => if old = cx then [] else [old]
                    | none => [],
          notified := false })
    ∧ (c.send_buffer.data.length < c.send_buffer.capacity →
      poll_write c cx src =
        { result :=
            .ready (.ok (min (c.send_buffer.capacity - c.send_buffer.data.length) src.length)),
          control :=
            { c with send_buffer :=
                { c.send_buffer with
                  data := c.send_buffer.data
                            ++ src.take (min (c.send_buffer.capacity - c.send_buffer.data.length) src.length) } },
          woken := [],
          notified := true }) := by
  constructor
  · intro hfull
    have hf : c.send_buffer.isFull = true := by
      simp [RingBuffer.isFull, hfull]
    cases hw : c.send_waker with
    | none => simp [poll_write, h, hf, replaceWaker, hw]
    | some old => simp [poll_write, h, hf, replaceWaker, hw]
  · intro hroom
    have hf : c.send_buffer.isFull = false := by
      simp [RingBuffer.isFull]
      omega
    simp [poll_write, h, hf]

/-- C4 (witness): the theorem at a concrete non-closed control with room in
the send buffer: three of the five offered bytes fit and are appended. -/
theorem C4_witness :
    poll_write
        { send_buffer := ⟨4, [1]⟩, send_waker := none,
          recv_buffer := ⟨4, []⟩, recv_waker := none, is_closed := false }
        9 [2, 3, 4, 5, 6] =
      { result := .ready (.ok 3),
        control := { send_buffer := ⟨4, [1, 2, 3, 4]⟩, send_waker := none,
                     recv_buffer := ⟨4, []⟩, recv_waker := none, is_closed := false },
        woken := [], notified := true } :=
  (C4_poll_write_open
      { send_buffer := ⟨4, [1]⟩, send_waker := none,
        recv_buffer := ⟨4, []⟩, recv_waker := none, is_closed := false }
      9 [2, 3, 4, 5, 6] rfl).2 (by decide)

/-- C10: when `is_closed` is already true, `poll_read` completes
immediately with EOF (no bytes delivered) and leaves the control block —
in particular a non-empty `recv_buffer` — completely untouched: buffered
bytes are never surfaced after closure. -/
theorem C10_poll_read_closed_ignores_buffer (c : TcpSocketControl) (cx : Waker)
    (bufLen : Nat) (h : c.is_closed = true) :
    poll_read c cx bufLen =
      { result := .ready (.ok ()), bytes := [], control := c, woken := [],
        notified := false } := by
  simp [poll_read, h]

/-- C10 (witness): the theorem at a closed control whose recv buffer still
holds three undelivered bytes: EOF, nothing surfaced, buffer intact. -/
theorem C10_witness :
    poll_read
        { send_buffer := ⟨4, []⟩, send_waker := none,
          recv_buffer := ⟨8, [1, 2, 3]⟩, recv_waker := none, is_closed := true }
        9 16 =
      { result := .ready (.ok ()), bytes := [],
        control := { send_buffer := ⟨4, []⟩, send_waker := none,
                     recv_buffer := ⟨8, [1, 2, 3]⟩, recv_waker := none, is_closed := true },
        woken := [], notified := false } :=
  C10_poll_read_closed_ignores_buffer
    { send_buffer := ⟨4, []⟩, send_waker := none,
      recv_buffer := ⟨8, [1, 2, 3]⟩, recv_waker := none, is_closed := true }
    9 16 rfl

/-- C7: a destination of the IPv4-mapped form `::ffff:a.b.c.d` with port
`p` is passed to the upstream connect as exactly the IPv4 address
`a.b.c.d` with port `p`; IPv6 destinations not of that form and IPv4
destinations pass through unchanged. -/
theorem C7_ipv4_mapped_normalization (a b c d p q : Nat) (ip : Ipv6Addr) (v4 : Ipv4Addr) :
    handle_redir_client_target
        (.V6 ⟨[0, 0, 0, 0, 0, 0, 0, 0, 0, 0, 255, 255, a, b, c, d]⟩ p)
      = .SocketAddress (.V4 ⟨a, b, c, d⟩ p)
    ∧ (to_ipv4_mapped ip = none →
      handle_redir_client_target (.V6 ip q) = .SocketAddress (.V6 ip q))
    ∧ handle_redir_client_target (.V4 v4 q) = .SocketAddress (.V4 v4 q) := by
  refine ⟨?_, ?_, rfl⟩
  · simp [handle_redir_client_target, to_ipv4_mapped]
  · intro h
    simp [handle_redir_client_target, h]

/-- C7 (witness): `::ffff:93.184.216.34:443` is unmapped to
`93.184.216.34:443`, and `::1:443` passes through unchanged. -/
theorem C7_witness :
    handle_redir_client_target
        (.V6 ⟨[0, 0, 0, 0, 0, 0, 0, 0, 0, 0, 255, 255, 93, 184, 216, 34]⟩ 443)
      = .SocketAddress (.V4 ⟨93, 184, 216, 34⟩ 443)
    ∧ handle_redir_client_target
        (.V6 ⟨[0, 0, 0, 0, 0, 0, 0, 0, 0, 0, 0, 0, 0, 0, 0, 1]⟩ 443)
      = .SocketAddress (.V6 ⟨[0, 0, 0, 0, 0, 0, 0, 0, 0, 0, 0, 0, 0, 0, 0, 1]⟩ 443) :=
  ⟨(C7_ipv4_mapped_normalization 93 184 216 34 443 0
      ⟨[]⟩ ⟨0, 0, 0, 0⟩).1,
   (C7_ipv4_mapped_normalization 0 0 0 0 0 443
      ⟨[0, 0, 0, 0, 0, 0, 0, 0, 0, 0, 0, 0, 0, 0, 0, 1]⟩ ⟨0, 0, 0, 0⟩).2.1 (by decide)⟩

/-- C8: `handle_packet` creates a configured stack socket and spawns a
splicing task exactly for segments with SYN set and ACK clear; the socket
carries the configured buffer sizes and keep-alive, a 7200-second idle
timeout, and listens on the packet's destination address; a listen
failure surfaces as an error; any other segment yields ok with no
connection created. -/
theorem C8_handle_packet_syn_only (opts : TcpOpts) (dst : SocketAddr) (msg : String)
    (syn ack : Bool) (lr : Res String Unit) :
    handle_packet opts true false dst (.ok ()) =
      .ok (some
        { recv_buffer_capacity := opts.recv_buffer_size.getD DEFAULT_TCP_RECV_BUFFER_SIZE,
          send_buffer_capacity := opts.send_buffer_size.getD DEFAULT_TCP_SEND_BUFFER_SIZE,
          keep_alive := opts.keepalive,
          timeout := some 7200,
          listen_addr := dst,
          spawned := true })
    ∧ handle_packet opts true false dst (.error msg)
        = .error { kind := "Other", message := msg }
    ∧ (syn = false ∨ ack = true → handle_packet opts syn ack dst lr = .ok none) := by
  refine ⟨rfl, rfl, ?_⟩
  intro h
  rcases h with h | h
  · simp [handle_packet, h]
  · simp [handle_packet, h]

/-- C8 (witness): the theorem at concrete inputs — a plain ACK segment
creates nothing, a SYN segment creates a socket with a 7200-second
timeout listening on the destination. -/
theorem C8_witness :
    handle_packet ⟨none, none, none⟩ false true (SocketAddr.V4 ⟨10, 0, 0, 1⟩ 80) (.ok ())
        = .ok none
    ∧ handle_packet ⟨none, none, none⟩ true false (SocketAddr.V4 ⟨10, 0, 0, 1⟩ 80) (.ok ())
        = .ok (some
          { recv_buffer_capacity := 87380, send_buffer_capacity := 16384,
            keep_alive := none, timeout := some 7200,
            listen_addr := SocketAddr.V4 ⟨10, 0, 0, 1⟩ 80, spawned := true }) :=
  ⟨(C8_handle_packet_syn_only ⟨none, none, none⟩ (SocketAddr.V4 ⟨10, 0, 0, 1⟩ 80) ""
      false true (.ok ())).2.2 (Or.inr rfl),
   (C8_handle_packet_syn_only ⟨none, none, none⟩ (SocketAddr.V4 ⟨10, 0, 0, 1⟩ 80) ""
      false true (.ok ())).1⟩

end Shadowsocks
